import Mathlib

/-!
Verification of the lpc-mcp bridge (src/src/index.js and the unnamed
variant) against its natural-language specification.

The bridge multiplexes MCP tool calls onto an LSP subprocess.  The
embedding below translates the relevant JavaScript into Lean:

* the `cleanStream` Transform (line filter for the subprocess stdout);
* the diagnostics cache (a JS `Map` from file URI to diagnostics array);
* the didOpen payload construction (`version: 1` constant in the source);
* the CallTool request handler (guard, file read, didOpen, per-tool
  switch, catch-all error mapping), with its externally visible effects
  recorded as an explicit action trace;
* the `startLSP` handshake with its 5-second `Promise.race` timeout.

Fallible collaborators (filesystem read, engine replies) are passed in as
`Except` values; the engine reply strings stand for the already
JSON-serialized results the JS code embeds via `JSON.stringify`.

JavaScript string primitives (`trim`, `startsWith`, `split("\n")`) are
embedded as structurally recursive functions over the character list of a
`String`, so every definition evaluates on concrete inputs.
-/

namespace LpcMcp

/-! ## JavaScript string primitives -/

/-- Character-level prefix test backing the JS string method used by the
filter. -/
def isPrefixChars : List Char → List Char → Bool
  | [], _ => true
  | _ :: _, [] => false
  | p :: ps, c :: cs => p == c && isPrefixChars ps cs

/-- JS `s.startsWith(pre)`. -/
def jsStartsWith (s pre : String) : Bool :=
  isPrefixChars pre.data s.data

/-- JS `s.trim()`: strip whitespace from both ends. -/
def jsTrim (s : String) : String :=
  ⟨((s.data.dropWhile Char.isWhitespace).reverse.dropWhile Char.isWhitespace).reverse⟩

/-- JS `s.split("\n")` at character level: always at least one (possibly
empty) segment. -/
def splitNewlineChars : List Char → List (List Char)
  | [] => [[]]
  | c :: rest =>
    let r := splitNewlineChars rest
    if c = '\n' then [] :: r
    else
      match r with
      | [] => [[c]]
      | h :: t => (c :: h) :: t

/-- JS `data.split("\n")`. -/
def jsSplitLines (s : String) : List String :=
  (splitNewlineChars s.data).map String.mk

/-- JS `lines.join("\n")`. -/
def joinNewline : List String → String
  | [] => ""
  | [s] => s
  | s :: rest => s ++ "\n" ++ joinNewline rest

/-! ## Framed Transport Filter (cleanStream, src/src/index.js lines 59-80) -/

/-- The filter predicate of the `cleanStream` Transform: the source trims
the line and keeps it when the trimmed form starts with `Content-Length:`,
starts with an open brace, or is empty. -/
def keepLine (line : String) : Bool :=
  let trimmed := jsTrim line
  jsStartsWith trimmed "Content-Length:" || jsStartsWith trimmed "\x7b" || trimmed == ""

/-- The line filter call from the Transform body: the surviving lines of one
chunk, in order, unchanged. -/
def cleanLines (lines : List String) : List String :=
  lines.filter keepLine

/-- The whole Transform on one chunk: split on newlines, filter, rejoin. -/
def cleanChunk (data : String) : String :=
  joinNewline (cleanLines (jsSplitLines data))

/-- The `if(filtered) this.push(filtered)` guard: an empty rejoined string
is not pushed downstream. -/
def cleanChunkOut (data : String) : Option String :=
  if cleanChunk data = "" then none else some (cleanChunk data)

/-- The claim's literal classification of a line: blank, or begins with the
frame-length header `Content-Length:`, or begins with an open brace —
stated on the raw line, without trimming. -/
def keepLineClaimed (line : String) : Bool :=
  line == "" || jsStartsWith line "Content-Length:" || jsStartsWith line "\x7b"

/-- The amended classification: the decision is taken on the
whitespace-trimmed form of the line. -/
def keepLineAmended (line : String) : Bool :=
  jsTrim line == "" || jsStartsWith (jsTrim line) "Content-Length:"
    || jsStartsWith (jsTrim line) "\x7b"

lemma keepLine_eq_amended (l : String) : keepLine l = keepLineAmended l := by
  simp only [keepLine, keepLineAmended]
  cases jsStartsWith (jsTrim l) "Content-Length:" <;>
    cases jsStartsWith (jsTrim l) "\x7b" <;> simp

/-- C2 (counterexample): the line consisting of a space, an open brace and
an x begins with a space — it is
not blank, does not begin with `Content-Length:` and does not begin with an
open brace, so by the claim it should be dropped; the filter keeps it
because it classifies the trimmed line. -/
theorem cleanstream_claim_cex :
    cleanLines [" \x7bx"] = [" \x7bx"] ∧ keepLineClaimed " \x7bx" = false := by
  constructor <;> rfl

/-- C2 (amended): for every chunk's line list, exactly those lines whose
whitespace-trimmed form is empty, begins with `Content-Length:`, or begins
with an open brace survive; all other lines are dropped; survivors are the
original lines, in their original relative order (a sublist of the input). -/
theorem cleanstream_filters_amended (lines : List String) :
    cleanLines lines = lines.filter keepLineAmended
  ∧ List.Sublist (cleanLines lines) lines := by
  constructor
  · exact List.filter_congr (fun l _ => keepLine_eq_amended l)
  · exact List.filter_sublist lines

/-! ## LSP data model (fields the source reads) -/

/-- A zero-indexed line/character position, as in the LSP payloads. -/
structure Position where
  line : Nat
  character : Nat
deriving Repr, DecidableEq

/-- A half-open range of positions.  The JS field `end` is a Lean keyword,
embedded here as `endPos`. -/
structure Range where
  start : Position
  endPos : Position
deriving Repr, DecidableEq

/-- One diagnostic as the source reads it: `d.severity`, `d.range.start`,
`d.message`. -/
structure Diagnostic where
  severity : Nat
  range : Range
  message : String
deriving Repr, DecidableEq

/-! ## Diagnostics Cache (JS `Map`, src/src/index.js lines 31, 99-102, 322) -/

/-- The diagnostics cache: a JS `Map` of file URI to diagnostics array,
embedded as an association list with first-match lookup (observationally
equal to `Map.set`/`Map.get`). -/
abbrev DiagCache := List (String × List Diagnostic)

/-- JS `this.diagnosticsCache.set(uri, diagnostics)`: wholesale replacement of
any prior entry for that key (the new binding shadows older ones). -/
def cacheSet (m : DiagCache) (k : String) (v : List Diagnostic) : DiagCache :=
  (k, v) :: m

/-- JS `this.diagnosticsCache.get(uri) || []`: the read as the consumer
performs it, defaulting a missing entry to the empty array. -/
def cacheGet (m : DiagCache) (k : String) : List Diagnostic :=
  (List.lookup k m).getD []

lemma cacheGet_not_mem (m : DiagCache) (k : String)
    (h : k ∉ m.map Prod.fst) : cacheGet m k = [] := by
  induction m with
  | nil => rfl
  | cons p m ih =>
    simp only [List.map_cons, List.mem_cons, not_or] at h
    simp only [cacheGet, List.lookup, beq_eq_false_iff_ne.mpr h.1]
    exact ih h.2

/-- C5: a `set` followed by a `get` for the same identity returns
exactly the just-set sequence, also when an older entry existed
(replacement, not merge); a `get` for a never-set identity returns the
empty sequence. -/
theorem diagcache_replace_and_default (m : DiagCache) (k : String)
    (v w : List Diagnostic) :
    cacheGet (cacheSet m k v) k = v
  ∧ cacheGet (cacheSet (cacheSet m k w) k v) k = v
  ∧ (k ∉ m.map Prod.fst → cacheGet m k = []) := by
  refine ⟨?_, ?_, cacheGet_not_mem m k⟩ <;>
    simp [cacheGet, cacheSet, List.lookup]

/-- Witness for `diagcache_replace_and_default` at a concrete cache. -/
theorem diagcache_replace_and_default_witness :
    cacheGet (cacheSet [] "file:///m/room.c" [⟨1, ⟨⟨0, 0⟩, ⟨0, 1⟩⟩, "m"⟩])
        "file:///m/room.c" = [⟨1, ⟨⟨0, 0⟩, ⟨0, 1⟩⟩, "m"⟩]
  ∧ cacheGet [] "file:///m/room.c" = [] :=
  ⟨(diagcache_replace_and_default [] "file:///m/room.c"
      [⟨1, ⟨⟨0, 0⟩, ⟨0, 1⟩⟩, "m"⟩] []).1,
   (diagcache_replace_and_default [] "file:///m/room.c"
      [⟨1, ⟨⟨0, 0⟩, ⟨0, 1⟩⟩, "m"⟩] []).2.2 (by simp)⟩

/-! ## didOpen payload (src/src/index.js lines 249-256) -/

/-- The `textDocument` item of the didOpen notification.  The source sends
the literal `version: 1` on every open. -/
structure TextDocumentItem where
  uri : String
  languageId : String
  version : Nat
  text : String
deriving Repr, DecidableEq

/-- The didOpen payload the handler constructs:
`{uri, languageId: "lpc", version: 1, text: fileContent}`. -/
def didOpenItem (uri content : String) : TextDocumentItem :=
  { uri := uri, languageId := "lpc", version := 1, text := content }

/-- C4 (counterexample): re-opening `/m/room.c` with identical content
sends a didOpen whose version equals the previously sent one (both are the
literal `1`); it is not strictly greater, and no version counter exists in
the source. -/
theorem didopen_version_cex :
    (didOpenItem "file:///m/room.c" "int x;\n").version = 1
  ∧ ¬ (didOpenItem "file:///m/room.c" "int x;\n").version
      < (didOpenItem "file:///m/room.c" "int x;\n").version := by
  exact ⟨rfl, by decide⟩

/-- C4 (amended): every document-open notification carries the constant
version `1`; a re-open (even with identical content) re-sends version `1`
rather than an incremented one. -/
theorem didopen_version_constant (uri content : String) :
    (didOpenItem uri content).version = 1 := rfl

/-! ## Diagnostics formatting (src/src/index.js lines 336-351) -/

/-- JS `["Error", "Warning", "Information", "Hint"][d.severity - 1] || "Unknown"`:
LSP severities are 1-based; anything outside 1..4 yields `undefined` in JS
and falls back to `"Unknown"`. -/
def severityName (s : Nat) : String :=
  match s with
  | 1 => "Error"
  | 2 => "Warning"
  | 3 => "Information"
  | 4 => "Hint"
  | _ => "Unknown"

/-- The per-diagnostic human-facing line:
`[${severity}] Line ${line}:${char} - ${message}` with the position
converted to 1-indexed. -/
def formatDiagnostic (d : Diagnostic) : String :=
  "[" ++ severityName d.severity ++ "] Line " ++ Nat.repr (d.range.start.line + 1)
    ++ ":" ++ Nat.repr (d.range.start.character + 1) ++ " - " ++ d.message

/-- Rendering of `JSON.stringify` on one position, at the fields the
embedding carries. -/
def renderPosition (p : Position) : String :=
  "\x7b\"line\":" ++ Nat.repr p.line ++ ",\"character\":" ++ Nat.repr p.character ++ "\x7d"

/-- Rendering of `JSON.stringify` on one range. -/
def renderRange (r : Range) : String :=
  "\x7b\"start\":" ++ renderPosition r.start ++ ",\"end\":" ++ renderPosition r.endPos ++ "\x7d"

/-- Rendering of `JSON.stringify` on one diagnostic: the raw zero-indexed
record as it appears in the structured payload. -/
def renderDiagnostic (d : Diagnostic) : String :=
  "\x7b\"severity\":" ++ Nat.repr d.severity ++ ",\"range\":" ++ renderRange d.range
    ++ ",\"message\":\"" ++ d.message ++ "\"\x7d"

/-- Rendering of `JSON.stringify(diagnostics)` on the whole array. -/
def renderDiags (ds : List Diagnostic) : String :=
  "[" ++ joinComma (ds.map renderDiagnostic) ++ "]"
where
  joinComma : List String → String
    | [] => ""
    | [s] => s
    | s :: rest => s ++ "," ++ joinComma rest

/-- The full diagnostics response text:
`Found ${n} diagnostic(s):\n\n${formatted}\n\nRaw diagnostics:\n${json}`. -/
def diagnosticsText (diags : List Diagnostic) : String :=
  "Found " ++ Nat.repr diags.length ++ " diagnostic(s):\n\n"
    ++ joinNewline (diags.map formatDiagnostic)
    ++ "\n\nRaw diagnostics:\n" ++ renderDiags diags

/-! ## CallTool request handler (src/src/index.js lines 235-368) -/

/-- The externally visible effects of one handler invocation, in the order
the source performs them. -/
inductive Action where
  | fileRead (path : String)
  | didOpen (item : TextDocumentItem)
  | engineRequest (method : String) (uri : String) (line character : Nat)
      (includeDeclaration : Option Bool)
  | wait (ms : Nat)
  | cacheRead (uri : String)
deriving Repr, DecidableEq

/-- What the handler hands back to the MCP layer: either a tool result
(content blocks plus the `isError` flag) or an exception escaping the
handler (the pre-try guard's `throw`). -/
inductive ToolOutcome where
  | result (content : List String) (isError : Bool)
  | thrown (msg : String)
deriving Repr, DecidableEq

/-- The tool names the switch statement knows. -/
def knownTools : List String :=
  ["lpc_hover", "lpc_definition", "lpc_references", "lpc_diagnostics"]

/-- The CallTool handler.  `ready` is whether `this.lspConnection` is set;
`fileRes` is the outcome of `fs.readFile(args.file)`; `hoverReply`,
`defReply`, `refReply` are the engine's (serialized) responses to the three
position requests, `.error` meaning the engine rejected the request; `cache`
is the diagnostics cache at the moment it is read.  Returns the outcome and
the trace of effects, mirroring the source: guard, file read, didOpen,
switch on the tool name, catch-all mapping failures to
`{content: [..], isError: true}` with text `Error: ${message}`. -/
def handleCallTool (ready : Bool) (name file : String) (line character : Nat)
    (fileRes hoverReply defReply refReply : Except String String)
    (cache : DiagCache) : ToolOutcome × List Action :=
  if !ready then
    (.thrown "LSP not initialized", [])
  else
    let uri := "file://" ++ file
    match fileRes with
    | .error msg => (.result ["Error: " ++ msg] true, [.fileRead file])
    | .ok content =>
      let opened : List Action := [.fileRead file, .didOpen (didOpenItem uri content)]
      if name = "lpc_hover" then
        let acts := opened ++ [.engineRequest "textDocument/hover" uri line character none]
        match hoverReply with
        | .ok r => (.result [r] false, acts)
        | .error msg => (.result ["Error: " ++ msg] true, acts)
      else if name = "lpc_definition" then
        let acts := opened ++ [.engineRequest "textDocument/definition" uri line character none]
        match defReply with
        | .ok r => (.result [r] false, acts)
        | .error msg => (.result ["Error: " ++ msg] true, acts)
      else if name = "lpc_references" then
        let acts := opened
          ++ [.engineRequest "textDocument/references" uri line character (some true)]
        match refReply with
        | .ok r => (.result [r] false, acts)
        | .error msg => (.result ["Error: " ++ msg] true, acts)
      else if name = "lpc_diagnostics" then
        let acts := opened ++ [.wait 500, .cacheRead uri]
        let diags := cacheGet cache uri
        if diags.isEmpty then
          (.result ["No diagnostics found for this file. The code appears to be valid."] false,
           acts)
        else
          (.result [diagnosticsText diags] false, acts)
      else
        (.result ["Error: Unknown tool: " ++ name] true, opened)

/-- The result shape the tool-protocol caller sees. -/
structure ToolResult where
  content : List String
  isError : Bool
deriving Repr, DecidableEq

/-- Modelled from the spec: the tool-protocol transport (§6, a fixed
external contract outside src/) receives the handler's outcome; per the §7
propagation policy a fault escaping the handler is surfaced to the caller
as an error-flagged result carrying the fault's message, never a process
crash. -/
def surfaceOutcome : ToolOutcome → ToolResult
  | .result c e => ⟨c, e⟩
  | .thrown m => ⟨[m], true⟩

/-- One tool-protocol invocation end to end: the handler plus the surface
mapping, with the same effect trace. -/
def invokeTool (ready : Bool) (name file : String) (line character : Nat)
    (fileRes hoverReply defReply refReply : Except String String)
    (cache : DiagCache) : ToolResult × List Action :=
  let (o, tr) := handleCallTool ready name file line character
    fileRes hoverReply defReply refReply cache
  (surfaceOutcome o, tr)

/-! ## Claim theorems about the handler -/

/-- C3: every Bridge operation invoked before the Session is ready
yields a tool-protocol error result containing the session-not-initialized
indication, and the effect trace is empty — the operation never contacts
the engine. -/
theorem not_ready_rejected (name file : String) (line character : Nat)
    (fileRes hoverReply defReply refReply : Except String String)
    (cache : DiagCache) :
    invokeTool false name file line character
        fileRes hoverReply defReply refReply cache
      = ({ content := ["LSP not initialized"], isError := true }, []) := rfl

/-- C1: with a ready Session, every invocation produces a tool result
(the handler never lets a fault escape); a failed file read, a rejected
hover/definition/references request, and an unknown operation name each
surface as a result with `isError` true whose text carries the failure's
message. -/
theorem calltool_error_containment (name file : String) (line character : Nat)
    (fileRes hoverReply defReply refReply : Except String String)
    (cache : DiagCache) :
    (∃ cs b, (handleCallTool true name file line character
        fileRes hoverReply defReply refReply cache).1 = .result cs b)
  ∧ (∀ m, (handleCallTool true name file line character
        (.error m) hoverReply defReply refReply cache).1
      = .result ["Error: " ++ m] true)
  ∧ (∀ content m, (handleCallTool true "lpc_hover" file line character
        (.ok content) (.error m) defReply refReply cache).1
      = .result ["Error: " ++ m] true)
  ∧ (∀ content m, (handleCallTool true "lpc_definition" file line character
        (.ok content) hoverReply (.error m) refReply cache).1
      = .result ["Error: " ++ m] true)
  ∧ (∀ content m, (handleCallTool true "lpc_references" file line character
        (.ok content) hoverReply defReply (.error m) cache).1
      = .result ["Error: " ++ m] true)
  ∧ (name ∉ knownTools → ∀ content,
      (handleCallTool true name file line character
        (.ok content) hoverReply defReply refReply cache).1
      = .result ["Error: Unknown tool: " ++ name] true) := by
  refine ⟨?_, fun m => rfl, fun content m => rfl, fun content m => rfl,
    fun content m => rfl, fun hunk content => ?_⟩
  · cases fileRes with
    | error m => exact ⟨_, _, rfl⟩
    | ok content =>
      by_cases h1 : name = "lpc_hover"
      · subst h1
        cases hoverReply with
        | ok r => exact ⟨[r], false, by simp [handleCallTool]⟩
        | error m => exact ⟨["Error: " ++ m], true, by simp [handleCallTool]⟩
      · by_cases h2 : name = "lpc_definition"
        · subst h2
          cases defReply with
          | ok r => exact ⟨[r], false, by simp [handleCallTool]⟩
          | error m => exact ⟨["Error: " ++ m], true, by simp [handleCallTool]⟩
        · by_cases h3 : name = "lpc_references"
          · subst h3
            cases refReply with
            | ok r => exact ⟨[r], false, by simp [handleCallTool]⟩
            | error m => exact ⟨["Error: " ++ m], true, by simp [handleCallTool]⟩
          · by_cases h4 : name = "lpc_diagnostics"
            · subst h4
              by_cases h5 : (cacheGet cache ("file://" ++ file)).isEmpty
              · exact ⟨["No diagnostics found for this file. The code appears to be valid."],
                  false, by simp [handleCallTool, h5]⟩
              · exact ⟨[diagnosticsText (cacheGet cache ("file://" ++ file))],
                  false, by simp [handleCallTool, h5]⟩
            · exact ⟨["Error: Unknown tool: " ++ name], true,
                by simp [handleCallTool, h1, h2, h3, h4]⟩
  · simp only [knownTools, List.mem_cons, List.not_mem_nil, or_false, not_or] at hunk
    obtain ⟨h1, h2, h3, h4⟩ := hunk
    simp [handleCallTool, h1, h2, h3, h4]

/-- Witness for `calltool_error_containment`: the unknown operation name
`lpc_rename` with a readable file yields the error result. -/
theorem calltool_error_containment_witness :
    ("lpc_rename" ∉ knownTools)
  ∧ (handleCallTool true "lpc_rename" "/m/room.c" 4 10
      (.ok "int x;") (.ok "h") (.ok "d") (.ok "r") []).1
      = .result ["Error: Unknown tool: lpc_rename"] true :=
  ⟨by decide,
   (calltool_error_containment "lpc_rename" "/m/room.c" 4 10
      (.ok "int x;") (.ok "h") (.ok "d") (.ok "r") []).2.2.2.2.2
     (by decide) "int x;"⟩

/-- C6: with a ready Session, a diagnostics invocation sends the
document-open notification, then waits the fixed 500 ms grace period, then
reads the Diagnostics Cache for the document's identity; an empty cached
sequence is reported as the "no issues" success text, and a cache entry
set to the empty sequence is indistinguishable from an identity that was
never set. -/
theorem diagnostics_grace_period (file content : String) (line character : Nat)
    (hoverReply defReply refReply : Except String String) (cache : DiagCache) :
    (handleCallTool true "lpc_diagnostics" file line character
        (.ok content) hoverReply defReply refReply cache).2
      = [.fileRead file, .didOpen (didOpenItem ("file://" ++ file) content),
         .wait 500, .cacheRead ("file://" ++ file)]
  ∧ (cacheGet cache ("file://" ++ file) = [] →
      (handleCallTool true "lpc_diagnostics" file line character
          (.ok content) hoverReply defReply refReply cache).1
        = .result ["No diagnostics found for this file. The code appears to be valid."] false)
  ∧ ((handleCallTool true "lpc_diagnostics" file line character
        (.ok content) hoverReply defReply refReply
        (cacheSet cache ("file://" ++ file) [])).1
      = (handleCallTool true "lpc_diagnostics" file line character
          (.ok content) hoverReply defReply refReply []).1) := by
  refine ⟨?_, fun h => ?_, ?_⟩
  · by_cases h5 : (cacheGet cache ("file://" ++ file)).isEmpty <;>
      simp [handleCallTool, h5]
  · simp [handleCallTool, h]
  · simp [handleCallTool, cacheGet, cacheSet, List.lookup]

/-- Witness for `diagnostics_grace_period` on an empty cache. -/
theorem diagnostics_grace_period_witness :
    (handleCallTool true "lpc_diagnostics" "/m/room.c" 0 0
        (.ok "int x;") (.ok "") (.ok "") (.ok "") []).1
      = .result ["No diagnostics found for this file. The code appears to be valid."] false :=
  (diagnostics_grace_period "/m/room.c" "int x;" 0 0
      (.ok "") (.ok "") (.ok "") []).2.1 rfl

/-- C7: every known operation, invoked with a ready Session and a
readable file, first reads the file and sends a document-open notification
carrying that content before anything else (in particular before its engine
request, which can only occur in the remainder of the trace); and the
outcome is a tool result, never a fault — re-opening an already-open
document goes through the same unconditional didOpen path and is never an
error. -/
theorem ops_open_before_request (name file content : String)
    (line character : Nat)
    (hoverReply defReply refReply : Except String String) (cache : DiagCache)
    (hn : name ∈ knownTools) :
    (∃ rest, (handleCallTool true name file line character
        (.ok content) hoverReply defReply refReply cache).2
      = Action.fileRead file
          :: Action.didOpen (didOpenItem ("file://" ++ file) content) :: rest)
  ∧ (∃ cs b, (handleCallTool true name file line character
        (.ok content) hoverReply defReply refReply cache).1 = .result cs b) := by
  simp only [knownTools, List.mem_cons, List.not_mem_nil, or_false] at hn
  rcases hn with rfl | rfl | rfl | rfl
  · cases hoverReply with
    | ok r =>
      exact ⟨⟨[.engineRequest "textDocument/hover" ("file://" ++ file) line character none],
        by simp [handleCallTool]⟩, [r], false, by simp [handleCallTool]⟩
    | error m =>
      exact ⟨⟨[.engineRequest "textDocument/hover" ("file://" ++ file) line character none],
        by simp [handleCallTool]⟩, ["Error: " ++ m], true, by simp [handleCallTool]⟩
  · cases defReply with
    | ok r =>
      exact ⟨⟨[.engineRequest "textDocument/definition" ("file://" ++ file) line character none],
        by simp [handleCallTool]⟩, [r], false, by simp [handleCallTool]⟩
    | error m =>
      exact ⟨⟨[.engineRequest "textDocument/definition" ("file://" ++ file) line character none],
        by simp [handleCallTool]⟩, ["Error: " ++ m], true, by simp [handleCallTool]⟩
  · cases refReply with
    | ok r =>
      exact ⟨⟨[.engineRequest "textDocument/references" ("file://" ++ file) line character
          (some true)], by simp [handleCallTool]⟩, [r], false, by simp [handleCallTool]⟩
    | error m =>
      exact ⟨⟨[.engineRequest "textDocument/references" ("file://" ++ file) line character
          (some true)], by simp [handleCallTool]⟩, ["Error: " ++ m], true,
        by simp [handleCallTool]⟩
  · by_cases h5 : (cacheGet cache ("file://" ++ file)).isEmpty
    · exact ⟨⟨[.wait 500, .cacheRead ("file://" ++ file)], by simp [handleCallTool, h5]⟩,
        ["No diagnostics found for this file. The code appears to be valid."],
        false, by simp [handleCallTool, h5]⟩
    · exact ⟨⟨[.wait 500, .cacheRead ("file://" ++ file)], by simp [handleCallTool, h5]⟩,
        [diagnosticsText (cacheGet cache ("file://" ++ file))],
        false, by simp [handleCallTool, h5]⟩

/-- Witness for `ops_open_before_request` at the references operation. -/
theorem ops_open_before_request_witness :
    (∃ rest, (handleCallTool true "lpc_references" "/m/room.c" 4 10
        (.ok "int x;") (.ok "h") (.ok "d") (.ok "r") []).2
      = Action.fileRead "/m/room.c"
          :: Action.didOpen (didOpenItem "file:///m/room.c" "int x;") :: rest)
  ∧ (∃ cs b, (handleCallTool true "lpc_references" "/m/room.c" 4 10
        (.ok "int x;") (.ok "h") (.ok "d") (.ok "r") []).1 = .result cs b) :=
  ops_open_before_request "lpc_references" "/m/room.c" "int x;" 4 10
    (.ok "h") (.ok "d") (.ok "r") [] (by decide)

/-- C10: every references invocation issues the
`textDocument/references` request with `context.includeDeclaration` set to
`true` — the trace is exactly file read, didOpen, then the request carrying
`includeDeclaration = true`, whatever the engine replies. -/
theorem references_include_declaration (file content : String)
    (line character : Nat)
    (hoverReply defReply refReply : Except String String) (cache : DiagCache) :
    (handleCallTool true "lpc_references" file line character
        (.ok content) hoverReply defReply refReply cache).2
      = [.fileRead file, .didOpen (didOpenItem ("file://" ++ file) content),
         .engineRequest "textDocument/references" ("file://" ++ file)
           line character (some true)] := by
  cases refReply <;> simp [handleCallTool]

/-! ## Session start and handshake timeout (src/src/index.js lines 116-142) -/

/-- The Session states of the spec's state machine.  The JS has no explicit
state value; `ready` corresponds to `startLSP` having returned, `failed` to
it having thrown.  (`notStarted`/`starting` name the spec's
pre-handshake states.) -/
inductive SessionState where
  | notStarted
  | starting
  | ready
  | failed
  | closed
deriving Repr, DecidableEq

/-- The 5000 ms literal of the `setTimeout` in the `Promise.race`. -/
def initTimeoutMs : Nat := 5000

/-- The race of the init request against the 5-second timer: the engine's
response arrives at `responseAt` milliseconds (`none` = never); the race
resolves with the response when it beats the timer and otherwise rejects
with the timer's `Error("LSP init timeout")`. -/
def raceInit (responseAt : Option Nat) (resp : String) : Except String String :=
  match responseAt with
  | some t => if t < initTimeoutMs then .ok resp else .error "LSP init timeout"
  | none => .error "LSP init timeout"

/-- The `startLSP` procedure: on a won race the handshake completes (the `initialized`
notification is sent) and the Session is ready; on a lost race the catch
logs and rethrows, leaving the Session failed.  The race is run exactly
once — there is no retry path in the source. -/
def startLSP (responseAt : Option Nat) (resp : String) :
    Except String String × SessionState :=
  match raceInit responseAt resp with
  | .ok r => (.ok r, .ready)
  | .error e => (.error e, .failed)

/-- The `run()` method: start the LSP, then connect the MCP transport; a
`startLSP` failure propagates and the server is never connected. -/
def runBridge (responseAt : Option Nat) (resp : String) : Except String String :=
  match (startLSP responseAt resp).1 with
  | .ok _ => .ok "connected"
  | .error e => .error e

/-- C8: when the engine's initialize response takes at least 5000 ms
(or never arrives), `startLSP` fails with the handshake-timeout error, the
Session is left failed, and the failure propagates through `run()` — the
server never comes up and no retry occurs. -/
theorem startlsp_timeout_fatal (t : Nat) (resp : String)
    (h : initTimeoutMs ≤ t) :
    startLSP (some t) resp = (.error "LSP init timeout", .failed)
  ∧ runBridge (some t) resp = .error "LSP init timeout"
  ∧ startLSP none resp = (.error "LSP init timeout", .failed) := by
  have hlt : ¬ t < initTimeoutMs := Nat.not_lt.mpr h
  refine ⟨?_, ?_, rfl⟩ <;> simp [startLSP, runBridge, raceInit, hlt]

/-- Witness for `startlsp_timeout_fatal` at exactly 5000 ms. -/
theorem startlsp_timeout_fatal_witness :
    startLSP (some 5000) "ok" = (.error "LSP init timeout", .failed)
  ∧ runBridge (some 5000) "ok" = .error "LSP init timeout"
  ∧ startLSP none "ok" = (.error "LSP init timeout", .failed) :=
  startlsp_timeout_fatal 5000 "ok" (by decide)

/-- C9: after the engine pushes one Error-severity diagnostic at
zero-indexed line 2, character 3 with message "undefined symbol" for
`file:///m/room.c`, a diagnostics invocation on `/m/room.c` returns exactly
that single issue: the human-facing line is 1-indexed `Line 3:4`, and the
raw record in the structured payload keeps the zero-indexed 2 and 3. -/
theorem diagnostics_scenario :
    (handleCallTool true "lpc_diagnostics" "/m/room.c" 0 0
        (.ok "int x;\n") (.ok "") (.ok "") (.ok "")
        (cacheSet [] "file:///m/room.c"
          [⟨1, ⟨⟨2, 3⟩, ⟨2, 19⟩⟩, "undefined symbol"⟩])).1
      = .result
          ["Found 1 diagnostic(s):\n\n[Error] Line 3:4 - undefined symbol"
            ++ "\n\nRaw diagnostics:\n"
            ++ renderDiags [⟨1, ⟨⟨2, 3⟩, ⟨2, 19⟩⟩, "undefined symbol"⟩]]
          false
  ∧ formatDiagnostic ⟨1, ⟨⟨2, 3⟩, ⟨2, 19⟩⟩, "undefined symbol"⟩
      = "[Error] Line 3:4 - undefined symbol"
  ∧ renderDiagnostic ⟨1, ⟨⟨2, 3⟩, ⟨2, 19⟩⟩, "undefined symbol"⟩
      = "\x7b\"severity\":1,\"range\":\x7b\"start\":\x7b\"line\":2,\"character\":3\x7d,"
        ++ "\"end\":\x7b\"line\":2,\"character\":19\x7d\x7d,"
        ++ "\"message\":\"undefined symbol\"\x7d" := by
  refine ⟨?_, rfl, rfl⟩
  rfl

end LpcMcp
